import Mathlib

/- Shallow embedding of src/server/src/embeddedSupport/languageModes.ts.

A LanguageMode instance is identified by its object identity, embedded as a
natural number: two dialect keys hold the same instance exactly when they
hold the same number. The collaborating cache (languageModelCache.ts) and
segmenter (embeddedSupport.ts) are not part of the given source tree; their
surface is modelled from the spec where the doc comments say so. -/

namespace Vetur

/-- Object identity of a LanguageMode instance. -/
abbrev ModeId := Nat

/-- A runtime TypeError, raised by a property access on an undefined value. -/
inductive JsError
| typeError
deriving DecidableEq

/-- LanguageRange from embeddedSupport: one segmented region of a document.
The source field named end is embedded as endPos. -/
structure LanguageRange where
  languageId : String
  start : Nat
  endPos : Nat
  attributeValue : Option Bool
deriving DecidableEq

/-- Modelled from the spec: the surface of VueDocumentRegions that
languageModes.ts uses (embeddedSupport.ts is not under src). It answers the
dialect governing a position and the ordered list of language ranges. -/
structure VueDocumentRegions where
  getLanguageAtPosition : Nat → String
  getAllLanguageRanges : List LanguageRange

/-- A document snapshot: identity, version, and its segmentation. The spec
specifies segmentation as a pure function of the snapshot, so the snapshot
carries the value that getVueDocumentRegions would compute for it. -/
structure TextDocument where
  uri : String
  version : Nat
  regions : VueDocumentRegions

/-- Modelled from the spec (section 4.1): the versioned model cache keyed by
document identity; each entry holds the version it was computed at and the
computed segmentation. -/
structure LanguageModelCache where
  entries : List (String × Nat × VueDocumentRegions)

/-- Modelled from the spec (section 4.1): get returns the cached value when
the cached version equals the snapshot version, and otherwise the freshly
computed segmentation of the snapshot. -/
def LanguageModelCache.getValue (c : LanguageModelCache) (d : TextDocument) :
    VueDocumentRegions :=
  match c.entries.find? (fun e => e.1 == d.uri) with
  | some e => if e.2.1 == d.version then e.2.2 else d.regions
  | none => d.regions

/-- Modelled from the spec (section 4.1): evict the entry of this identity. -/
def LanguageModelCache.onDocumentRemoved (c : LanguageModelCache) (uri : String) :
    LanguageModelCache :=
  ⟨c.entries.filter (fun e => e.1 != uri)⟩

/-- The modes field maps dialect identifiers to mode instances; embedded as
an association list in key insertion order (a for-in loop enumerates the
string keys of a JS object in insertion order; keys are pairwise distinct). -/
abbrev ModesMap := List (String × ModeId)

/-- Bracket read of the modes field at key k: a TypeError when the field is
undefined, otherwise the bound instance, or none for an absent key. -/
def readProp (modes : Option ModesMap) (k : String) : Except JsError (Option ModeId) :=
  match modes with
  | none => Except.error JsError.typeError
  | some m => Except.ok ((m.find? (fun e => e.1 == k)).map (fun e => e.2))

/-- State of the LanguageModes class. modes is none while that field is
undefined (before init assigns into it, and after dispose deletes it).
modelCachesHasRegions records whether the modelCaches array still holds the
documentRegions cache: it does from construction until dispose empties it. -/
structure LanguageModes where
  modes : Option ModesMap
  documentRegions : LanguageModelCache
  modelCachesHasRegions : Bool

/-- State established by the constructor: a fresh empty documentRegions
cache, pushed onto modelCaches; the modes field is not assigned. -/
def LanguageModes.initial : LanguageModes :=
  ⟨none, ⟨[]⟩, true⟩

/-- The bindings that the ten assignments in init attempt to install, in
source order: seven engines each under one key, then the single jsMode
instance under the three keys javascript, typescript and tsx. This is what
the assignment sequence produces on an empty map; init never reaches a
state holding them, see LanguageModes.init. -/
def initModes (vueM vueHtmlM cssM postcssM scssM lessM stylusM jsM : ModeId) : ModesMap :=
  [("vue", vueM), ("vue-html", vueHtmlM), ("css", cssM), ("postcss", postcssM),
   ("scss", scssM), ("less", lessM), ("stylus", stylusM),
   ("javascript", jsM), ("typescript", jsM), ("tsx", jsM)]

/-- Bracket write of one key of a present modes map: an existing binding is
overwritten in place, a new binding is appended (JS for-in enumerates
non-numeric string keys in insertion order). -/
def writeProp (m : ModesMap) (k : String) (v : ModeId) : ModesMap :=
  if m.any (fun e => e.1 == k) then m.map (fun e => if e.1 == k then (k, v) else e)
  else m ++ [(k, v)]

/-- The ten bracket writes of init applied in source order to a present
modes map. -/
def writeInitModes (m : ModesMap)
    (vueM vueHtmlM cssM postcssM scssM lessM stylusM jsM : ModeId) : ModesMap :=
  writeProp (writeProp (writeProp (writeProp (writeProp (writeProp (writeProp (writeProp
    (writeProp (writeProp m "vue" vueM) "vue-html" vueHtmlM) "css" cssM) "postcss"
    postcssM) "scss" scssM) "less" lessM) "stylus" stylusM) "javascript" jsM)
    "typescript" jsM) "tsx" jsM

/-- init: constructs the engines, then performs ten bracket writes into the
modes field. A bracket write on an undefined base raises a TypeError, and
the constructor never assigns the field, so from every reachable state init
throws at its first assignment and registers nothing. Only if the field
already held a map would the ten writes install the bindings. -/
def LanguageModes.init (s : LanguageModes)
    (vueM vueHtmlM cssM postcssM scssM lessM stylusM jsM : ModeId) :
    Except JsError LanguageModes :=
  match s.modes with
  | none => Except.error JsError.typeError
  | some m =>
    Except.ok { s with modes := some (writeInitModes m vueM vueHtmlM cssM postcssM scssM lessM stylusM jsM) }

/-- getModeAtPosition: segment the document through the cache, take the
dialect at the position, and bracket-read the modes field at that key. -/
def LanguageModes.getModeAtPosition (s : LanguageModes) (d : TextDocument) (pos : Nat) :
    Except JsError (Option ModeId) :=
  readProp s.modes ((s.documentRegions.getValue d).getLanguageAtPosition pos)

/-- LanguageModeRange: a LanguageRange paired with the mode that governs it.
The source builds it by spreading the range over an object that already has
the mode field; the range has no mode field, so nothing is overwritten. -/
structure LanguageModeRange where
  mode : ModeId
  languageId : String
  start : Nat
  endPos : Nat
  attributeValue : Option Bool
deriving DecidableEq

/-- The range part of a LanguageModeRange. -/
def LanguageModeRange.toLanguageRange (r : LanguageModeRange) : LanguageRange :=
  ⟨r.languageId, r.start, r.endPos, r.attributeValue⟩

/-- One loop iteration of getAllLanguageModeRangesInDocument: look the
dialect of the range up and, when a mode is bound, emit the range paired
with that mode. -/
def pairWithMode (m : ModesMap) (lr : LanguageRange) : Option LanguageModeRange :=
  ((m.find? (fun e => e.1 == lr.languageId)).map (fun e => e.2)).map
    (fun mo => ⟨mo, lr.languageId, lr.start, lr.endPos, lr.attributeValue⟩)

/-- getAllLanguageModeRangesInDocument: enumerate the language ranges and
keep those whose dialect has a bound mode. When the modes field is undefined
the first loop iteration raises a TypeError, so the call succeeds (with an
empty result) only for a document with no ranges. -/
def LanguageModes.getAllLanguageModeRangesInDocument (s : LanguageModes)
    (d : TextDocument) : Except JsError (List LanguageModeRange) :=
  match s.modes with
  | none =>
    if (s.documentRegions.getValue d).getAllLanguageRanges.isEmpty then Except.ok []
    else Except.error JsError.typeError
  | some m =>
    Except.ok ((s.documentRegions.getValue d).getAllLanguageRanges.filterMap (pairWithMode m))

/-- getAllModes: for-in over the keys of the modes field, pushing the bound
instance once per key (a for-in loop over an undefined field iterates
nothing; every bound instance is an object, hence truthy). -/
def LanguageModes.getAllModes (s : LanguageModes) : List ModeId :=
  match s.modes with
  | none => []
  | some m => m.map (fun e => e.2)

/-- getMode: direct bracket read of the modes field. -/
def LanguageModes.getMode (s : LanguageModes) (languageId : String) :
    Except JsError (Option ModeId) :=
  readProp s.modes languageId

/-- onDocumentRemoved: evict the document from every cache still held in
modelCaches, then call the per-document hook of the mode bound to each key
of the modes field. The second component is the trace of mode instances
whose hook was invoked, in key order. -/
def LanguageModes.onDocumentRemoved (s : LanguageModes) (d : TextDocument) :
    LanguageModes × List ModeId :=
  ({ s with documentRegions :=
      if s.modelCachesHasRegions then s.documentRegions.onDocumentRemoved d.uri
      else s.documentRegions },
   match s.modes with
   | none => []
   | some m => m.map (fun e => e.2))

/-- dispose: dispose every cache still held in modelCaches and empty that
array, call dispose on the mode bound to each key of the modes field, then
delete the field. Returns the new state, whether the documentRegions cache
dispose ran, and the trace of mode instances whose dispose was invoked, in
key order. -/
def LanguageModes.dispose (s : LanguageModes) :
    LanguageModes × Bool × List ModeId :=
  (⟨none,
    if s.modelCachesHasRegions then ⟨[]⟩ else s.documentRegions,
    false⟩,
   s.modelCachesHasRegions,
   match s.modes with
   | none => []
   | some m => m.map (fun e => e.2))

/-- A concrete language range used by concrete evaluations. -/
def sampleRange : LanguageRange := ⟨"vue", 0, 5, none⟩

/-- A concrete segmentation: everything is the vue dialect, one range. -/
def sampleRegions : VueDocumentRegions := ⟨fun _ => "vue", [sampleRange]⟩

/-- A concrete document snapshot. -/
def sampleDoc : TextDocument := ⟨"file:a.vue", 1, sampleRegions⟩

/-- A hypothetical configuration whose modes field holds the ten bindings
that the assignments in init attempt to install, with engine identities 0
to 6 and the shared scripting engine identity 7. No reachable state of the
program holds them: init throws at its first bracket write on the undefined
field. The aliasing claims presuppose such a configuration, so it is built
directly here to evaluate the per-key loops on it. -/
def hypotheticalReady : LanguageModes :=
  ⟨some (initModes 0 1 2 3 4 5 6 7), ⟨[]⟩, true⟩

/-- A range whose dialect is absent from the modes map contributes nothing. -/
lemma pairWithMode_eq_none (m : ModesMap) (lr : LanguageRange)
    (h : m.find? (fun e => e.1 == lr.languageId) = none) : pairWithMode m lr = none := by
  simp [pairWithMode, h]

/-- Projecting the mode away from the enumeration gives back exactly the
ranges whose dialect is bound, in their original order. -/
lemma pairWithMode_map (m : ModesMap) (l : List LanguageRange) :
    (l.filterMap (pairWithMode m)).map LanguageModeRange.toLanguageRange =
      l.filter (fun lr => (m.find? (fun e => e.1 == lr.languageId)).isSome) := by
  induction l with
  | nil => rfl
  | cons a t ih =>
    cases hf : m.find? (fun e => e.1 == a.languageId) with
    | none =>
      simp [List.filterMap_cons, List.filter_cons, pairWithMode, hf, ih]
    | some e =>
      simp [List.filterMap_cons, List.filter_cons, pairWithMode, hf, ih,
        LanguageModeRange.toLanguageRange]

/-- Every element of the enumeration carries exactly the mode that the modes
map binds to its dialect. -/
lemma mem_pairWithMode (m : ModesMap) (l : List LanguageRange) (r : LanguageModeRange)
    (hr : r ∈ l.filterMap (pairWithMode m)) :
    (m.find? (fun e => e.1 == r.languageId)).map (fun e => e.2) = some r.mode := by
  rcases List.mem_filterMap.mp hr with ⟨a, _, hfa⟩
  cases hf : m.find? (fun e => e.1 == a.languageId) with
  | none =>
    rw [pairWithMode_eq_none m a hf] at hfa
    cases hfa
  | some e =>
    simp [pairWithMode, hf] at hfa
    rw [← hfa]
    simp [hf]

/-- C1: init throws a TypeError at its first bracket write on the undefined
modes field, so no aliased configuration is ever registered and dispose from
the reachable constructor state invokes zero mode disposes; under the
hypothetical configuration the init assignments attempt to install, dispose
runs once per key, three times on the shared scripting instance, never
deduplicating. Both directions contradict the exactly-once claim. -/
theorem C1_dispose_called_per_key :
    LanguageModes.initial.init 0 1 2 3 4 5 6 7 = Except.error JsError.typeError ∧
      (LanguageModes.initial.dispose).2.2 = [] ∧
      (hypotheticalReady.dispose).2.2 = [0, 1, 2, 3, 4, 5, 6, 7, 7, 7] ∧
      ((hypotheticalReady.dispose).2.2).count 7 = 3 :=
  ⟨rfl, rfl, rfl, by decide⟩

/-- C2 counterexample: init throws before registering anything, so after the
attempted init getAllModes returns the empty list and the shared scripting
instance appears zero times, not exactly once; and under the hypothetical
configuration that init attempts to install, getAllModes holds that instance
three times, with duplicates. Either way the claim fails. -/
theorem C2_getAllModes_has_duplicates :
    LanguageModes.initial.init 0 1 2 3 4 5 6 7 = Except.error JsError.typeError ∧
      LanguageModes.initial.getAllModes = [] ∧
      (hypotheticalReady.getAllModes).count 7 = 3 ∧
      ¬ (hypotheticalReady.getAllModes).Nodup :=
  ⟨rfl, rfl, by decide, by decide⟩

/-- C2 amended: init throws on the undefined modes field and registers
nothing, so whenever the field is undefined getAllModes returns the empty
list; in a state whose modes field held the ten bindings init attempts to
install, getAllModes would enumerate one entry per key in insertion order,
the shared scripting instance appearing exactly three times. -/
theorem C2_getAllModes_per_key (s : LanguageModes) (cache : LanguageModelCache)
    (flag : Bool) (vueM vueHtmlM cssM postcssM scssM lessM stylusM jsM : ModeId)
    (h : s.modes = none) :
    s.init vueM vueHtmlM cssM postcssM scssM lessM stylusM jsM =
        Except.error JsError.typeError ∧
      s.getAllModes = [] ∧
      (LanguageModes.mk
          (some (initModes vueM vueHtmlM cssM postcssM scssM lessM stylusM jsM))
          cache flag).getAllModes =
        [vueM, vueHtmlM, cssM, postcssM, scssM, lessM, stylusM, jsM, jsM, jsM] := by
  refine ⟨?_, ?_, rfl⟩ <;> simp [LanguageModes.init, LanguageModes.getAllModes, h]

/-- C2 witness: the amended statement evaluated at the constructor state and
concrete engine identities. -/
theorem C2_getAllModes_per_key_witness :
    LanguageModes.initial.modes = none ∧
      (LanguageModes.initial.init 0 1 2 3 4 5 6 7 = Except.error JsError.typeError ∧
        LanguageModes.initial.getAllModes = [] ∧
        (LanguageModes.mk (some (initModes 0 1 2 3 4 5 6 7)) ⟨[]⟩ true).getAllModes =
          [0, 1, 2, 3, 4, 5, 6, 7, 7, 7]) :=
  ⟨rfl, C2_getAllModes_per_key LanguageModes.initial ⟨[]⟩ true 0 1 2 3 4 5 6 7 rfl⟩

/-- C3 counterexample: from the reachable constructor state a single
onDocumentRemoved call evicts the document from the segmentation cache but
invokes zero mode cleanup hooks, since init threw before registering any
mode; under the hypothetical configuration init attempts to install, the
hook of the shared scripting instance would run three times, not once. -/
theorem C3_removal_hook_per_key :
    (LanguageModes.initial.onDocumentRemoved sampleDoc).2 = [] ∧
      (LanguageModes.initial.onDocumentRemoved sampleDoc).1.documentRegions =
        LanguageModes.initial.documentRegions.onDocumentRemoved sampleDoc.uri ∧
      ((hypotheticalReady.onDocumentRemoved sampleDoc).2).count 7 = 3 ∧
      ((hypotheticalReady.onDocumentRemoved sampleDoc).2).count 7 ≠ 1 :=
  ⟨rfl, rfl, by decide, by decide⟩

/-- C3 amended: init registers nothing (it throws on the undefined modes
field), so a single onDocumentRemoved call invokes the segmentation cache
removal hook (while modelCaches still holds the cache) and no mode cleanup
hook at all; in a state whose modes field held the bindings init attempts to
install, the hook of the mode bound to each key would run once per key,
three times for the shared scripting instance. -/
theorem C3_removal_hook_per_key_general (s : LanguageModes) (d : TextDocument)
    (cache : LanguageModelCache) (flag : Bool)
    (vueM vueHtmlM cssM postcssM scssM lessM stylusM jsM : ModeId)
    (h : s.modes = none) :
    (s.onDocumentRemoved d).2 = [] ∧
      (s.onDocumentRemoved d).1.documentRegions =
        (if s.modelCachesHasRegions then s.documentRegions.onDocumentRemoved d.uri
         else s.documentRegions) ∧
      ((LanguageModes.mk
          (some (initModes vueM vueHtmlM cssM postcssM scssM lessM stylusM jsM))
          cache flag).onDocumentRemoved d).2 =
        [vueM, vueHtmlM, cssM, postcssM, scssM, lessM, stylusM, jsM, jsM, jsM] := by
  refine ⟨?_, rfl, rfl⟩
  simp [LanguageModes.onDocumentRemoved, h]

/-- C3 witness: the amended statement evaluated at the constructor state, a
concrete document and concrete engine identities. -/
theorem C3_removal_hook_per_key_general_witness :
    LanguageModes.initial.modes = none ∧
      ((LanguageModes.initial.onDocumentRemoved sampleDoc).2 = [] ∧
        (LanguageModes.initial.onDocumentRemoved sampleDoc).1.documentRegions =
          (if LanguageModes.initial.modelCachesHasRegions then
            LanguageModes.initial.documentRegions.onDocumentRemoved sampleDoc.uri
           else LanguageModes.initial.documentRegions) ∧
        ((LanguageModes.mk (some (initModes 0 1 2 3 4 5 6 7)) ⟨[]⟩
            true).onDocumentRemoved sampleDoc).2 =
          [0, 1, 2, 3, 4, 5, 6, 7, 7, 7]) :=
  ⟨rfl, C3_removal_hook_per_key_general LanguageModes.initial sampleDoc ⟨[]⟩ true
    0 1 2 3 4 5 6 7 rfl⟩

/-- C4 counterexample: before init the modes field is undefined, so getMode
and getModeAtPosition raise a TypeError instead of finding nothing. -/
theorem C4_uninitialized_getMode_raises :
    LanguageModes.initial.getMode "vue" = Except.error JsError.typeError ∧
      LanguageModes.initial.getModeAtPosition sampleDoc 3 = Except.error JsError.typeError :=
  ⟨rfl, rfl⟩

/-- C4 amended: before init, getAllModes returns the empty list, but getMode
and getModeAtPosition raise a TypeError, and so does
getAllLanguageModeRangesInDocument for a document whose segmentation has at
least one range, because the modes field is still undefined. -/
theorem C4_uninitialized_behavior (k : String) (d : TextDocument) (pos : Nat)
    (h : d.regions.getAllLanguageRanges ≠ []) :
    LanguageModes.initial.getAllModes = [] ∧
      LanguageModes.initial.getMode k = Except.error JsError.typeError ∧
      LanguageModes.initial.getModeAtPosition d pos = Except.error JsError.typeError ∧
      LanguageModes.initial.getAllLanguageModeRangesInDocument d =
        Except.error JsError.typeError := by
  refine ⟨rfl, rfl, rfl, ?_⟩
  simp [LanguageModes.getAllLanguageModeRangesInDocument, LanguageModes.initial,
    LanguageModelCache.getValue, List.isEmpty_iff, h]

/-- C4 witness: the amended statement evaluated at a concrete key, document
and position. -/
theorem C4_uninitialized_behavior_witness :
    sampleDoc.regions.getAllLanguageRanges ≠ [] ∧
      (LanguageModes.initial.getAllModes = [] ∧
        LanguageModes.initial.getMode "vue" = Except.error JsError.typeError ∧
        LanguageModes.initial.getModeAtPosition sampleDoc 3 = Except.error JsError.typeError ∧
        LanguageModes.initial.getAllLanguageModeRangesInDocument sampleDoc =
          Except.error JsError.typeError) :=
  ⟨by decide, C4_uninitialized_behavior "vue" sampleDoc 3 (by decide)⟩

/-- C5 counterexample: dispose from the reachable constructor state leaves
the modes field deleted, after which getMode and getModeAtPosition raise a
TypeError instead of being silent no-ops. -/
theorem C5_disposed_getMode_raises :
    ((LanguageModes.initial.dispose).1).getMode "javascript" =
        Except.error JsError.typeError ∧
      ((LanguageModes.initial.dispose).1).getModeAtPosition sampleDoc 3 =
        Except.error JsError.typeError :=
  ⟨rfl, rfl⟩

/-- C5 amended: after dispose, getAllModes returns the empty list and
onDocumentRemoved is an error-free no-op on the state, but getMode and
getModeAtPosition raise a TypeError, and so does
getAllLanguageModeRangesInDocument for a document whose segmentation (as
read back through the now-emptied cache) has at least one range, because
dispose deleted the modes field. -/
theorem C5_disposed_behavior (s : LanguageModes) (k : String) (d : TextDocument) (pos : Nat)
    (h : (((s.dispose).1).documentRegions.getValue d).getAllLanguageRanges ≠ []) :
    ((s.dispose).1).getAllModes = [] ∧
      ((s.dispose).1).getMode k = Except.error JsError.typeError ∧
      ((s.dispose).1).getModeAtPosition d pos = Except.error JsError.typeError ∧
      ((s.dispose).1).getAllLanguageModeRangesInDocument d =
        Except.error JsError.typeError ∧
      ((s.dispose).1).onDocumentRemoved d = ((s.dispose).1, []) := by
  refine ⟨rfl, rfl, rfl, ?_, rfl⟩
  simp [LanguageModes.getAllLanguageModeRangesInDocument, LanguageModes.dispose,
    List.isEmpty_iff]
  simpa [LanguageModes.dispose] using h

/-- C5 witness: the amended statement evaluated at the reachable state
obtained by disposing the constructor state, with a concrete key, document
and position. -/
theorem C5_disposed_behavior_witness :
    (((LanguageModes.initial.dispose).1).documentRegions.getValue
          sampleDoc).getAllLanguageRanges ≠ [] ∧
      (((LanguageModes.initial.dispose).1).getAllModes = [] ∧
        ((LanguageModes.initial.dispose).1).getMode "javascript" =
          Except.error JsError.typeError ∧
        ((LanguageModes.initial.dispose).1).getModeAtPosition sampleDoc 3 =
          Except.error JsError.typeError ∧
        ((LanguageModes.initial.dispose).1).getAllLanguageModeRangesInDocument sampleDoc =
          Except.error JsError.typeError ∧
        ((LanguageModes.initial.dispose).1).onDocumentRemoved sampleDoc =
          ((LanguageModes.initial.dispose).1, [])) :=
  ⟨by decide,
    C5_disposed_behavior LanguageModes.initial "javascript" sampleDoc 3 (by decide)⟩

/-- A second concrete document whose cursor dialect (css) has no bound mode
in the one-entry map used below, while its second range (vue) has one. -/
def sampleDocCss : TextDocument :=
  ⟨"file:b.vue", 1, ⟨fun _ => "css", [⟨"css", 0, 3, none⟩, ⟨"vue", 3, 6, none⟩]⟩⟩

/-- C6: with the modes field present, a dialect with no bound mode is
silently dropped: getModeAtPosition returns none without raising when the
dialect at the position is unbound, and getAllLanguageModeRangesInDocument
succeeds with every returned element carrying a bound dialect, so a region
with an unbound dialect is excluded from the result entirely. -/
theorem C6_unknown_dialect_dropped (m : ModesMap) (cache : LanguageModelCache)
    (flag : Bool) (d : TextDocument) (pos : Nat)
    (h : m.find? (fun e => e.1 == ((cache.getValue d).getLanguageAtPosition pos)) = none) :
    (LanguageModes.mk (some m) cache flag).getModeAtPosition d pos = Except.ok none ∧
      ∃ res,
        (LanguageModes.mk (some m) cache flag).getAllLanguageModeRangesInDocument d =
            Except.ok res ∧
          ∀ r ∈ res, (m.find? (fun e => e.1 == r.languageId)).map (fun e => e.2) =
            some r.mode := by
  constructor
  · simp [LanguageModes.getModeAtPosition, readProp, h]
  · refine ⟨_, rfl, ?_⟩
    intro r hr
    exact mem_pairWithMode m _ r hr

/-- C6 witness: a one-entry map binding only vue, queried on a document
whose cursor dialect is css. -/
theorem C6_unknown_dialect_dropped_witness :
    [("vue", 0)].find? (fun e =>
        e.1 == (((⟨[]⟩ : LanguageModelCache).getValue sampleDocCss).getLanguageAtPosition
          1)) = none ∧
      ((LanguageModes.mk (some [("vue", 0)]) ⟨[]⟩ true).getModeAtPosition sampleDocCss 1 =
          Except.ok none ∧
        ∃ res,
          (LanguageModes.mk (some [("vue", 0)]) ⟨[]⟩
                true).getAllLanguageModeRangesInDocument sampleDocCss =
              Except.ok res ∧
            ∀ r ∈ res, ([("vue", 0)].find? (fun e => e.1 == r.languageId)).map
              (fun e => e.2) = some r.mode) :=
  ⟨by decide, C6_unknown_dialect_dropped [("vue", 0)] ⟨[]⟩ true sampleDocCss 1 (by decide)⟩

/-- C7: dispatch round-trip: when the segmenter reports dialect D at the
position and the modes map binds D to instance M, getModeAtPosition returns
exactly M, the same instance getMode returns for D. -/
theorem C7_dispatch_round_trip (m : ModesMap) (cache : LanguageModelCache) (flag : Bool)
    (d : TextDocument) (pos : Nat) (dialect : String) (inst : ModeId)
    (h1 : (cache.getValue d).getLanguageAtPosition pos = dialect)
    (h2 : (m.find? (fun e => e.1 == dialect)).map (fun e => e.2) = some inst) :
    (LanguageModes.mk (some m) cache flag).getModeAtPosition d pos =
        Except.ok (some inst) ∧
      (LanguageModes.mk (some m) cache flag).getMode dialect = Except.ok (some inst) := by
  constructor
  · simp [LanguageModes.getModeAtPosition, readProp, h1, h2]
  · simp [LanguageModes.getMode, readProp, h2]

/-- C7 witness: the post-init map queried at a position governed by vue. -/
theorem C7_dispatch_round_trip_witness :
    ((⟨[]⟩ : LanguageModelCache).getValue sampleDoc).getLanguageAtPosition 3 = "vue" ∧
      ((initModes 0 1 2 3 4 5 6 7).find? (fun e => e.1 == "vue")).map (fun e => e.2) =
        some 0 ∧
      ((LanguageModes.mk (some (initModes 0 1 2 3 4 5 6 7)) ⟨[]⟩ true).getModeAtPosition
            sampleDoc 3 = Except.ok (some 0) ∧
        (LanguageModes.mk (some (initModes 0 1 2 3 4 5 6 7)) ⟨[]⟩ true).getMode "vue" =
          Except.ok (some 0)) :=
  ⟨by decide, by decide,
    C7_dispatch_round_trip (initModes 0 1 2 3 4 5 6 7) ⟨[]⟩ true sampleDoc 3 "vue" 0
      (by decide) (by decide)⟩

/-- C8: the claimed post-init aliasing is the evident intent of the ten
assignments (one shared jsMode instance under javascript, typescript and
tsx), but init never completes: from the constructor state it throws a
TypeError at its first bracket write, because the modes field is declared
without an initializer. Had the field held a map, init would complete,
install exactly the intended bindings, and getMode would return the one
shared instance for all three scripting keys. -/
theorem C8_init_throws_before_aliasing :
    LanguageModes.initial.init 0 1 2 3 4 5 6 7 = Except.error JsError.typeError ∧
      LanguageModes.init ⟨some [], ⟨[]⟩, true⟩ 0 1 2 3 4 5 6 7 =
        Except.ok ⟨some (initModes 0 1 2 3 4 5 6 7), ⟨[]⟩, true⟩ ∧
      (LanguageModes.mk (some (initModes 0 1 2 3 4 5 6 7)) ⟨[]⟩ true).getMode
          "javascript" = Except.ok (some 7) ∧
      (LanguageModes.mk (some (initModes 0 1 2 3 4 5 6 7)) ⟨[]⟩ true).getMode
          "typescript" = Except.ok (some 7) ∧
      (LanguageModes.mk (some (initModes 0 1 2 3 4 5 6 7)) ⟨[]⟩ true).getMode "tsx" =
        Except.ok (some 7) := by
  refine ⟨rfl, ?_, rfl, rfl, rfl⟩
  have h : writeInitModes [] 0 1 2 3 4 5 6 7 = initModes 0 1 2 3 4 5 6 7 := by decide
  simp [LanguageModes.init, h]

/-- Evicting the same identity from the cache twice equals evicting once. -/
lemma LanguageModelCache.onDocumentRemoved_idem (c : LanguageModelCache) (u : String) :
    (c.onDocumentRemoved u).onDocumentRemoved u = c.onDocumentRemoved u := by
  simp [LanguageModelCache.onDocumentRemoved, List.filter_filter]

/-- C9: onDocumentRemoved is idempotent on the observable registry and cache
state: calling it twice for the same document leaves the same state as
calling it once (and the embedding is total, so the second call cannot
raise). -/
theorem C9_onDocumentRemoved_idempotent (s : LanguageModes) (d : TextDocument) :
    (((s.onDocumentRemoved d).1).onDocumentRemoved d).1 = (s.onDocumentRemoved d).1 := by
  cases hf : s.modelCachesHasRegions <;>
    simp [LanguageModes.onDocumentRemoved, hf, LanguageModelCache.onDocumentRemoved_idem]

/-- C10: with the modes field present, the enumeration succeeds and returns,
in their original relative order, exactly the ranges whose dialect has a
bound mode, each with its languageId, start, endPos and attributeValue
unchanged and paired with that bound mode. -/
theorem C10_region_enumeration (m : ModesMap) (cache : LanguageModelCache)
    (flag : Bool) (d : TextDocument) :
    ∃ res,
      (LanguageModes.mk (some m) cache flag).getAllLanguageModeRangesInDocument d =
          Except.ok res ∧
        res.map LanguageModeRange.toLanguageRange =
          ((cache.getValue d).getAllLanguageRanges).filter
            (fun lr => (m.find? (fun e => e.1 == lr.languageId)).isSome) ∧
        ∀ r ∈ res, (m.find? (fun e => e.1 == r.languageId)).map (fun e => e.2) =
          some r.mode := by
  refine ⟨_, rfl, pairWithMode_map m _, ?_⟩
  intro r hr
  exact mem_pairWithMode m _ r hr

end Vetur
